import Mathlib

/-!
Verification of the `ai-search` pipeline (src/ai-search.js).

The program is a four-stage pipeline: Google custom search → per-result
page fetch (cheerio or puppeteer) → truncation/sentinel normalization →
LLM synthesis (OpenAI or Gemini).  We embed the pipeline shallowly:

* JavaScript strings are `List Char` (so `slice`, `trim`, `length` are
  `List.take`, whitespace-stripping, `List.length`).
* Each external call (HTTP GET, browser navigation, LLM request) is
  parameterized by an oracle describing the outcome the environment
  produces; the embedded function is the pure transformation the JS
  code applies to that outcome, with `try/catch` rendered as a match on
  the error case.
* JSON field access follows JavaScript semantics: a missing field is
  `none`, and dereferencing a missing value (JS `TypeError` on
  `undefined.x`) is an `Except.error` that the surrounding `catch`
  converts to the sentinel.
* The orchestrator `main` is embedded as a function producing the list
  of externally visible events (fetch invocations, the synthesis
  invocation, log lines) together with its final value, so that claims
  about invocation counts and ordering are statements about that list.
-/

/-- JavaScript strings, as lists of characters. -/
abbrev JStr := List Char

/-- `String.trim` of JavaScript: strip whitespace from both ends. -/
def jsTrim (s : JStr) : JStr :=
  ((s.dropWhile Char.isWhitespace).reverse.dropWhile Char.isWhitespace).reverse

/-- Sentinel returned when the extracted text is too short
(`'No meaningful content found.'`, ai-search.js:79,106). -/
def noContentSentinel : JStr := "No meaningful content found.".toList

/-- Sentinel returned when a fetch fails
(`'Error fetching content.'`, ai-search.js:82,109). -/
def errorFetchingSentinel : JStr := "Error fetching content.".toList

/-- Sentinel returned when synthesis fails
(`'Error generating summary.'`, ai-search.js:148,177,180). -/
def errorSummarySentinel : JStr := "Error generating summary.".toList

/-- Shared post-processing of both fetch strategies (ai-search.js:79 and
:106): `content.trim().length > 100 ? content.slice(0, 2000) :
'No meaningful content found.'`. -/
def postProcess (content : JStr) : JStr :=
  if 100 < (jsTrim content).length then content.take 2000 else noContentSentinel

/-- Outcome of the network part of a cheerio fetch: either the HTTP GET
succeeded and `$('p').map(...).join(' ')` produced `content`, or some
step threw (timeout, network error, bad response). -/
inductive FetchOutcome where
  | ok (content : JStr)
  | err
deriving DecidableEq

/-- `fetchPageContentWithCheerio` (ai-search.js:93-111): the `try` body
post-processes the extracted content; the `catch` returns the fetch-error
sentinel. -/
def fetchPageContentWithCheerio : FetchOutcome → JStr
  | .ok content => postProcess content
  | .err => errorFetchingSentinel

/-- Outcome of a puppeteer fetch attempt:
* `launchFail` — `puppeteer.launch()` itself threw, so `browser` was
  never assigned (ai-search.js:67);
* `navFail` — the launch succeeded but `newPage`/`goto`/`evaluate`
  threw (ai-search.js:68-74);
* `ok content` — navigation and paragraph extraction succeeded. -/
inductive PuppeteerOutcome where
  | launchFail
  | navFail
  | ok (content : JStr)
deriving DecidableEq

/-- Browser-lifecycle events of one `fetchPageContentWithPuppeteer`
invocation. -/
inductive BrowserEvent where
  | launch
  | close
deriving DecidableEq

/-- `fetchPageContentWithPuppeteer` (ai-search.js:64-88), returning the
string result together with the browser-lifecycle trace.  The `finally`
block (ai-search.js:83-87) runs `browser.close()` whenever `browser` was
assigned, i.e. on every path except a failed `launch`. -/
def fetchPageContentWithPuppeteer : PuppeteerOutcome → JStr × List BrowserEvent
  | .launchFail => (errorFetchingSentinel, [])
  | .navFail => (errorFetchingSentinel, [.launch, .close])
  | .ok content => (postProcess content, [.launch, .close])

/-! ## Search provider -/

/-- One item of the Google custom-search response.  JavaScript object
fields may be absent (`undefined`), hence `Option`. -/
structure SearchItem where
  title : Option JStr
  link : Option JStr
deriving DecidableEq

/-- A result locator built by `googleSearch` from one item
(`{ title: item.title, link: item.link }`, ai-search.js:51-54). -/
structure SearchResult where
  title : Option JStr
  link : Option JStr
deriving DecidableEq

/-- Outcome of the search HTTP request: a thrown error, or a response
whose `data.items` field may be absent. -/
inductive SearchResponse where
  | err
  | ok (items : Option (List SearchItem))
deriving DecidableEq

/-- `googleSearch` (ai-search.js:45-59): on success,
`(response.data.items || []).slice(0, numResults).map(item =>
({title: item.title, link: item.link}))`; on any error, `[]`. -/
def googleSearch (resp : SearchResponse) (numResults : Nat) : List SearchResult :=
  match resp with
  | .err => []
  | .ok items? =>
    ((items?.getD []).take numResults).map fun item => ⟨item.title, item.link⟩

/-! ## Synthesis providers -/

/-- OpenAI chat-completion response body, JS-object style: each field on
the path `data.choices[0].message.content` may be absent. -/
structure OpenAIMessage where
  content : Option JStr
deriving DecidableEq

structure OpenAIChoice where
  message : Option OpenAIMessage
deriving DecidableEq

structure OpenAIData where
  choices : Option (List OpenAIChoice)
deriving DecidableEq

/-- Outcome of the OpenAI request: transport error or a response body. -/
inductive OpenAIResponse where
  | err
  | ok (data : OpenAIData)
deriving DecidableEq

/-- The JS expression `response.data.choices[0].message.content.trim()`
(ai-search.js:145).  Dereferencing `undefined` throws (`Except.error`);
`choices[0]` of an empty array is `undefined`, and `.message` on it
throws. -/
def openaiExtract (d : OpenAIData) : Except Unit JStr :=
  match d.choices with
  | none => .error ()
  | some choices =>
    match choices.head? with
    | none => .error ()
    | some c0 =>
      match c0.message with
      | none => .error ()
      | some m =>
        match m.content with
        | none => .error ()
        | some s => .ok (jsTrim s)

/-- Result string of `summarizeWithOpenAI` (ai-search.js:116-150): the
`try` body returns the trimmed first-choice content; any transport error
or thrown field access lands in the `catch`, which returns the summary
sentinel. -/
def openaiResult (resp : OpenAIResponse) : JStr :=
  match resp with
  | .err => errorSummarySentinel
  | .ok d =>
    match openaiExtract d with
    | .error _ => errorSummarySentinel
    | .ok s => s

/-- Gemini response body along the path
`data.candidates[0]?.content?.parts[0]?.text`. -/
structure GeminiPart where
  text : Option JStr
deriving DecidableEq

structure GeminiContent where
  parts : Option (List GeminiPart)
deriving DecidableEq

structure GeminiCandidate where
  content : Option GeminiContent
deriving DecidableEq

structure GeminiData where
  candidates : Option (List GeminiCandidate)
deriving DecidableEq

inductive GeminiResponse where
  | err
  | ok (data : GeminiData)
deriving DecidableEq

/-- The JS expression
`response.data.candidates[0]?.content?.parts[0]?.text.trim()`
(ai-search.js:177) with optional-chaining semantics: `candidates`
absent makes `candidates[0]` throw; `candidates[0]` or `content` or
`parts[0]` being `undefined` short-circuits the chain to `undefined`
(`Except.ok none`); `parts` absent makes `parts[0]` throw; `text`
absent makes `.trim()` throw. -/
def geminiExtract (d : GeminiData) : Except Unit (Option JStr) :=
  match d.candidates with
  | none => .error ()
  | some cands =>
    match cands.head? with
    | none => .ok none
    | some c0 =>
      match c0.content with
      | none => .ok none
      | some content =>
        match content.parts with
        | none => .error ()
        | some parts =>
          match parts.head? with
          | none => .ok none
          | some p0 =>
            match p0.text with
            | none => .error ()
            | some t => .ok (some (jsTrim t))

/-- Result string of `summarizeWithGemini` (ai-search.js:155-182):
`extracted || 'Error generating summary.'` — an `undefined` chain or an
empty trimmed string is falsy and yields the sentinel; thrown accesses
and transport errors land in the `catch`, same sentinel. -/
def geminiResult (resp : GeminiResponse) : JStr :=
  match resp with
  | .err => errorSummarySentinel
  | .ok d =>
    match geminiExtract d with
    | .error _ => errorSummarySentinel
    | .ok none => errorSummarySentinel
    | .ok (some s) => if s = [] then errorSummarySentinel else s

/-! ## Prompts and requests -/

/-- System message of the OpenAI request (ai-search.js:125). -/
def openaiSystemContent : JStr :=
  "You are an assistant that generates a new, comprehensive response based on provided content. Synthesize new insights while being informative and cohesive.".toList

/-- User message of the OpenAI request (ai-search.js:126):
`Generate new content that answers the query: "${query}"` followed by
the excerpts joined with `'\n\n'`. -/
def openaiUserContent (query : JStr) (contents : List JStr) : JStr :=
  "Generate new content that answers the query: \"".toList ++ query ++
    "\"\n\nHere is the information gathered from various sources:\n\n".toList ++
    List.intercalate "\n\n".toList contents

/-- The OpenAI request body (ai-search.js:130-143): model
`gpt-4-turbo`, the two messages as (role, content) pairs, and
`max_tokens: 250`. -/
structure OpenAIRequest where
  model : JStr
  messages : List (JStr × JStr)
  maxTokens : Nat
deriving DecidableEq

def openaiRequest (query : JStr) (contents : List JStr) : OpenAIRequest :=
  ⟨"gpt-4-turbo".toList,
   [("system".toList, openaiSystemContent),
    ("user".toList, openaiUserContent query contents)],
   250⟩

/-- `summarizeWithOpenAI` (ai-search.js:116-150): builds one request and
returns the response-derived string. -/
def summarizeWithOpenAI (query : JStr) (contents : List JStr)
    (resp : OpenAIResponse) : OpenAIRequest × JStr :=
  (openaiRequest query contents, openaiResult resp)

/-- Prompt text of the Gemini request (ai-search.js:166):
`Generate new content to answer the query: "${query}" based on the
following information:` followed by the excerpts joined with `'\n\n'`. -/
def geminiPromptText (query : JStr) (contents : List JStr) : JStr :=
  "Generate new content to answer the query: \"".toList ++ query ++
    "\" based on the following information:\n\n".toList ++
    List.intercalate "\n\n".toList contents

/-- `summarizeWithGemini` (ai-search.js:155-182): one request whose sole
user part is `geminiPromptText`, and the response-derived string. -/
def summarizeWithGemini (query : JStr) (contents : List JStr)
    (resp : GeminiResponse) : JStr × JStr :=
  (geminiPromptText query contents, geminiResult resp)

/-- The dead constant `instructions` of `main` (ai-search.js:216):
built from the query but never passed to either provider. -/
def instructions (query : JStr) : JStr :=
  query ++ " -- if there is nothing useful to say, simply say \"No results.\"".toList

/-! ## Orchestrator -/

/-- Externally visible events of one `main` run: the per-URL fetch
invocations, the single synthesis invocation (carrying the arguments it
receives), and the log lines the claims mention. -/
inductive Event where
  | fetchPuppeteer (url : Option JStr)
  | fetchCheerio (url : Option JStr)
  | synthOpenAI (query : JStr) (contents : List JStr)
  | synthGemini (query : JStr) (contents : List JStr)
  | log (msg : JStr)
deriving DecidableEq

def Event.isFetch : Event → Bool
  | .fetchPuppeteer _ => true
  | .fetchCheerio _ => true
  | _ => false

def Event.isSynth : Event → Bool
  | .synthOpenAI _ _ => true
  | .synthGemini _ _ => true
  | _ => false

/-- `console.log('❌ No results found.')` (ai-search.js:192). -/
def noResultsMsg : JStr := "❌ No results found.".toList

/-- `console.error('❌ Invalid fetch library specified.')`
(ai-search.js:207). -/
def invalidFetchMsg : JStr := "❌ Invalid fetch library specified.".toList

/-- The external world one run interacts with: the search response, the
fetch outcome the network/browser produces for each URL, and the two
synthesis responses. -/
structure Env where
  searchResponse : SearchResponse
  cheerioOutcome : Option JStr → FetchOutcome
  puppeteerOutcome : Option JStr → PuppeteerOutcome
  openaiResponse : OpenAIResponse
  geminiResponse : GeminiResponse

/-- The `for (const result of searchResults)` loop of `main`
(ai-search.js:198-212): per result, dispatch on `fetchLibrary`
(`'puppeteer'`, then `'cheerio'`, else log and return from `main`,
discarding the run) and push the fetched content.  Returns the events
of the loop and `some` accumulated contents, or `none` on the
invalid-library early return. -/
def fetchLoop (fetchLibrary : String) (env : Env) :
    List SearchResult → List Event × Option (List JStr)
  | [] => ([], some [])
  | r :: rs =>
    if fetchLibrary = "puppeteer" then
      let content := (fetchPageContentWithPuppeteer (env.puppeteerOutcome r.link)).1
      let rest := fetchLoop fetchLibrary env rs
      (.fetchPuppeteer r.link :: rest.1, rest.2.map (content :: ·))
    else if fetchLibrary = "cheerio" then
      let content := fetchPageContentWithCheerio (env.cheerioOutcome r.link)
      let rest := fetchLoop fetchLibrary env rs
      (.fetchCheerio r.link :: rest.1, rest.2.map (content :: ·))
    else
      ([.log invalidFetchMsg], none)

/-- `main` (ai-search.js:187-224): search; if no results, report and
stop; otherwise fetch every result in order, then invoke exactly one
provider (`'gemini'` selects Gemini, anything else falls back to
OpenAI).  Returns the event list and the final summary (`none` when the
run ends without a synthesis result). -/
def mainRun (query : JStr) (fetchLibrary model : String) (numResults : Nat)
    (env : Env) : List Event × Option JStr :=
  let searchResults := googleSearch env.searchResponse numResults
  if searchResults.length = 0 then
    ([.log noResultsMsg], none)
  else
    match fetchLoop fetchLibrary env searchResults with
    | (evs, none) => (evs, none)
    | (evs, some contents) =>
      if model = "gemini" then
        (evs ++ [.synthGemini query contents],
         some (summarizeWithGemini query contents env.geminiResponse).2)
      else
        (evs ++ [.synthOpenAI query contents],
         some (summarizeWithOpenAI query contents env.openaiResponse).2)

/-- The excerpt the configured strategy produces for one locator (the
loop body of `main` for a valid `fetchLibrary`). -/
def fetchContent (lib : String) (env : Env) (r : SearchResult) : JStr :=
  if lib = "puppeteer" then (fetchPageContentWithPuppeteer (env.puppeteerOutcome r.link)).1
  else fetchPageContentWithCheerio (env.cheerioOutcome r.link)

/-- The fetch-invocation event the configured strategy produces for one
locator. -/
def fetchEvent (lib : String) (r : SearchResult) : Event :=
  if lib = "puppeteer" then .fetchPuppeteer r.link else .fetchCheerio r.link

/-- Environment whose search request fails. -/
def envSearchDown : Env :=
  ⟨.err, fun _ => .err, fun _ => .launchFail, .err, .err⟩

/-- Environment for a three-result search where the second URL fails to
fetch and the others extract 150 characters of text. -/
def envThreeResults : Env where
  searchResponse := .ok (some
    [⟨some "A".toList, some "http://a".toList⟩,
     ⟨some "B".toList, some "http://b".toList⟩,
     ⟨some "C".toList, some "http://c".toList⟩])
  cheerioOutcome := fun url =>
    if url = some "http://b".toList then .err else .ok (List.replicate 150 'x')
  puppeteerOutcome := fun url =>
    if url = some "http://b".toList then .navFail else .ok (List.replicate 150 'x')
  openaiResponse := .ok ⟨some [⟨some ⟨some "Answer.".toList⟩⟩]⟩
  geminiResponse := .err

/-! ## Basic lemmas -/

lemma jsTrim_length_le (s : JStr) : (jsTrim s).length ≤ s.length := by
  unfold jsTrim
  simp only [List.length_reverse]
  refine le_trans (List.dropWhile_sublist _).length_le ?_
  rw [List.length_reverse]
  exact (List.dropWhile_sublist _).length_le

lemma jsTrim_of_no_whitespace (l : JStr)
    (hl : ∀ a ∈ l, a.isWhitespace = false) : jsTrim l = l := by
  have h1 : ∀ m : JStr, (∀ a ∈ m, Char.isWhitespace a = false) →
      m.dropWhile Char.isWhitespace = m := by
    intro m hm
    cases m with
    | nil => rfl
    | cons a t =>
      rw [List.dropWhile_cons, if_neg (by simp [hm a (List.mem_cons_self a t)])]
  unfold jsTrim
  rw [h1 l hl, h1 l.reverse (fun a ha => hl a (List.mem_reverse.mp ha))]
  exact List.reverse_reverse l

lemma postProcess_spec (c : JStr) :
    postProcess c ≠ [] ∧ (postProcess c).length ≤ 2000 ∧
      (postProcess c = noContentSentinel ∨
        (postProcess c = c.take 2000 ∧ 100 < (jsTrim c).length)) := by
  unfold postProcess
  by_cases h : 100 < (jsTrim c).length
  · rw [if_pos h]
    have hc : c ≠ [] := by
      intro hnil
      rw [hnil] at h
      simp [jsTrim] at h
    refine ⟨?_, List.length_take_le _ _, Or.inr ⟨rfl, h⟩⟩
    rw [Ne, List.take_eq_nil_iff]
    push_neg
    exact ⟨by norm_num, hc⟩
  · rw [if_neg h]
    exact ⟨by decide, by decide, Or.inl rfl⟩

/-- C2: for every URL and fetch outcome, each strategy returns exactly
one of extracted text truncated to at most 2000 characters, the
no-content sentinel, or the fetch-error sentinel; the result is never
empty and never longer than 2000 characters. -/
theorem fetch_returns_bounded_sentinel_or_text
    (oc : FetchOutcome) (op : PuppeteerOutcome) :
    (fetchPageContentWithCheerio oc ≠ [] ∧
      (fetchPageContentWithCheerio oc).length ≤ 2000 ∧
      (fetchPageContentWithCheerio oc = noContentSentinel ∨
        fetchPageContentWithCheerio oc = errorFetchingSentinel ∨
        ∃ c, oc = .ok c ∧ fetchPageContentWithCheerio oc = c.take 2000)) ∧
    ((fetchPageContentWithPuppeteer op).1 ≠ [] ∧
      ((fetchPageContentWithPuppeteer op).1).length ≤ 2000 ∧
      ((fetchPageContentWithPuppeteer op).1 = noContentSentinel ∨
        (fetchPageContentWithPuppeteer op).1 = errorFetchingSentinel ∨
        ∃ c, op = .ok c ∧ (fetchPageContentWithPuppeteer op).1 = c.take 2000)) := by
  constructor
  · cases oc with
    | ok c =>
      obtain ⟨h1, h2, h3⟩ := postProcess_spec c
      refine ⟨h1, h2, ?_⟩
      rcases h3 with h | ⟨h, _⟩
      · exact Or.inl h
      · exact Or.inr (Or.inr ⟨c, rfl, h⟩)
    | err => exact ⟨by decide, by decide, Or.inr (Or.inl rfl)⟩
  · cases op with
    | ok c =>
      obtain ⟨h1, h2, h3⟩ := postProcess_spec c
      refine ⟨h1, h2, ?_⟩
      rcases h3 with h | ⟨h, _⟩
      · exact Or.inl h
      · exact Or.inr (Or.inr ⟨c, rfl, h⟩)
    | navFail => exact ⟨by decide, by decide, Or.inr (Or.inl rfl)⟩
    | launchFail => exact ⟨by decide, by decide, Or.inr (Or.inl rfl)⟩

/-- C3 counterexample: a concatenated text of 101 space characters has
length greater than 100, yet post-processing returns the no-content
sentinel, not the first 2000 characters — the source tests the TRIMMED
length (`content.trim().length > 100`), not the raw length the claim
states. -/
theorem postProcess_untrimmed_length_counterexample :
    100 < (List.replicate 101 ' ').length ∧
    postProcess (List.replicate 101 ' ') = noContentSentinel ∧
    postProcess (List.replicate 101 ' ') ≠ (List.replicate 101 ' ').take 2000 := by
  refine ⟨by decide, by decide, by decide⟩

/-- C3 amended: the shared post-processing returns the first 2000
characters of the concatenated text when the TRIMMED text's length
exceeds 100 characters, and the no-content sentinel otherwise; 5000
characters of (non-whitespace) extracted text are truncated to exactly
the first 2000 characters, and 50 characters become the sentinel. -/
theorem postProcess_trimmed_threshold (c : JStr) :
    (100 < (jsTrim c).length →
      postProcess c = c.take 2000 ∧ (postProcess c).length = min 2000 c.length) ∧
    ((jsTrim c).length ≤ 100 → postProcess c = noContentSentinel) ∧
    (c.length = 5000 → 100 < (jsTrim c).length → (postProcess c).length = 2000) ∧
    (c.length = 50 → postProcess c = noContentSentinel) := by
  have htr : 100 < (jsTrim c).length → postProcess c = c.take 2000 := fun h => by
    unfold postProcess
    rw [if_pos h]
  refine ⟨fun h => ⟨htr h, ?_⟩, fun h => ?_, fun h5 h => ?_, fun h50 => ?_⟩
  · rw [htr h]
    simp [List.length_take]
  · unfold postProcess
    rw [if_neg (by omega)]
  · rw [htr h]
    simp [List.length_take, h5]
  · unfold postProcess
    rw [if_neg (by have := jsTrim_length_le c; omega)]

/-- C8: whenever the puppeteer strategy launches a browser (every
outcome except a failed `launch`), the browser is closed before the
function returns — launches and closes balance on every exit path:
successful extraction, content-too-short sentinel, and thrown
navigation/timeout/evaluation errors. -/
theorem puppeteer_closes_browser (op : PuppeteerOutcome) :
    ((fetchPageContentWithPuppeteer op).2.count BrowserEvent.close =
      (fetchPageContentWithPuppeteer op).2.count BrowserEvent.launch) ∧
    (fetchPageContentWithPuppeteer op).2.count BrowserEvent.launch ≤ 1 ∧
    (op ≠ .launchFail →
      (fetchPageContentWithPuppeteer op).2 = [BrowserEvent.launch, BrowserEvent.close]) := by
  cases op with
  | launchFail => exact ⟨rfl, by decide, fun h => absurd rfl h⟩
  | navFail => exact ⟨by decide, by decide, fun _ => rfl⟩
  | ok c => exact ⟨rfl, Nat.le_refl 1, fun _ => rfl⟩

/-- Witness for C8 at a concrete successful extraction. -/
theorem puppeteer_closes_browser_witness :
    (fetchPageContentWithPuppeteer (.ok "hello world".toList)).2 =
      [BrowserEvent.launch, BrowserEvent.close] :=
  (puppeteer_closes_browser (.ok "hello world".toList)).2.2 (by decide)

/-- C4 counterexample: an item whose `link` field is absent is NOT
dropped by `googleSearch` — it is retained as a locator with an absent
link, contradicting the claimed filtering of items lacking a usable
link. -/
theorem googleSearch_keeps_linkless_item :
    googleSearch (.ok (some [⟨some "t".toList, none⟩])) 5 =
      [⟨some "t".toList, none⟩] ∧
    ¬ (∀ r ∈ googleSearch (.ok (some [⟨some "t".toList, none⟩])) 5,
        r.link ≠ none) := by
  refine ⟨by decide, by decide⟩

/-- C4 amended: on a successful backend response, `googleSearch` with
limit `n` returns at most `n` locators, preserving the backend's
relative ordering, mapping the `i`-th retained item positionally to
`{title, link}`; items lacking a usable link are retained with an
absent link rather than dropped. -/
theorem googleSearch_limit_and_order (items : List SearchItem) (n : Nat) :
    (googleSearch (.ok (some items)) n).length ≤ n ∧
    (googleSearch (.ok (some items)) n).length = min n items.length ∧
    (googleSearch (.ok (some items)) n).map SearchResult.link =
      (items.map SearchItem.link).take n ∧
    (googleSearch (.ok (some items)) n).map SearchResult.title =
      (items.map SearchItem.title).take n ∧
    List.Sublist ((googleSearch (.ok (some items)) n).map SearchResult.link)
      (items.map SearchItem.link) ∧
    (∀ i (h1 : i < (googleSearch (.ok (some items)) n).length)
        (h2 : i < items.length),
      (googleSearch (.ok (some items)) n).get ⟨i, h1⟩ =
        ⟨(items.get ⟨i, h2⟩).title, (items.get ⟨i, h2⟩).link⟩) := by
  refine ⟨?_, ?_, ?_, ?_, ?_, ?_⟩
  · simp [googleSearch]
  · simp [googleSearch]
  · simp [googleSearch, ← List.map_take]
  · simp [googleSearch, ← List.map_take]
  · rw [show (googleSearch (.ok (some items)) n).map SearchResult.link =
        (items.map SearchItem.link).take n by simp [googleSearch, ← List.map_take]]
    exact List.take_sublist n _
  · intro i h1 h2
    simp [googleSearch]

/-- Witness for C4 at a concrete two-item response with limit 1. -/
theorem googleSearch_limit_and_order_witness :
    (googleSearch (.ok (some [⟨some "A".toList, some "a".toList⟩,
        ⟨some "B".toList, some "b".toList⟩])) 1).length ≤ 1 ∧
    (googleSearch (.ok (some [⟨some "A".toList, some "a".toList⟩,
        ⟨some "B".toList, some "b".toList⟩])) 1).get ⟨0, by decide⟩ =
      ⟨some "A".toList, some "a".toList⟩ :=
  ⟨(googleSearch_limit_and_order _ 1).1,
   (googleSearch_limit_and_order _ 1).2.2.2.2.2 0 (by decide) (by decide)⟩

/-- C6 (code-level divergence): the requests actually sent embed the
query and the excerpts joined with a blank line and ask for newly
generated content, but neither provider's prompt carries the
`say "No results."` instruction — that sentence lives only in the
unused `instructions` constant of `main`.  Evaluating the prompt
builders and the dead constant at a concrete query and excerpt pair
makes this visible. -/
theorem summarize_prompts_lack_no_results_instruction :
    openaiUserContent "weather today".toList
        ["excerpt one".toList, "excerpt two".toList] =
      "Generate new content that answers the query: \"weather today\"\n\nHere is the information gathered from various sources:\n\nexcerpt one\n\nexcerpt two".toList ∧
    geminiPromptText "weather today".toList
        ["excerpt one".toList, "excerpt two".toList] =
      "Generate new content to answer the query: \"weather today\" based on the following information:\n\nexcerpt one\n\nexcerpt two".toList ∧
    instructions "weather today".toList =
      "weather today -- if there is nothing useful to say, simply say \"No results.\"".toList := by
  refine ⟨by decide, by decide, by decide⟩

/-- Witness for C3 (amended) at 5000 and 50 characters of `'x'`. -/
theorem postProcess_trimmed_threshold_witness :
    postProcess (List.replicate 5000 'x') = (List.replicate 5000 'x').take 2000 ∧
    (postProcess (List.replicate 5000 'x')).length = 2000 ∧
    postProcess (List.replicate 50 'x') = noContentSentinel :=
  ⟨((postProcess_trimmed_threshold (List.replicate 5000 'x')).1 (by
      rw [jsTrim_of_no_whitespace _
          (fun a ha => by rw [List.eq_of_mem_replicate ha]; decide),
        List.length_replicate]
      norm_num)).1,
   (postProcess_trimmed_threshold (List.replicate 5000 'x')).2.2.1
     (by rw [List.length_replicate]) (by
      rw [jsTrim_of_no_whitespace _
          (fun a ha => by rw [List.eq_of_mem_replicate ha]; decide),
        List.length_replicate]
      norm_num),
   (postProcess_trimmed_threshold (List.replicate 50 'x')).2.2.2
     (by rw [List.length_replicate])⟩

/-- C7: for both providers, a transport error and every thrown access
into an absent or malformed response body (missing `choices` or
`candidates`, empty arrays, missing `message`, `content`, `parts` or
`text` fields) produce the synthesis-error sentinel; the embedded
functions are total, mirroring that the `catch` blocks let no exception
escape to `main`. -/
theorem summarize_errors_become_sentinel :
    (openaiResult .err = errorSummarySentinel) ∧
    (∀ d, openaiExtract d = .error () → openaiResult (.ok d) = errorSummarySentinel) ∧
    (∀ d : OpenAIData,
      (d.choices = none ∨ d.choices = some [] ∨
        (∃ c0 rest, d.choices = some (c0 :: rest) ∧
          (c0.message = none ∨ c0.message = some ⟨none⟩))) →
      openaiExtract d = .error ()) ∧
    (geminiResult .err = errorSummarySentinel) ∧
    (∀ d, geminiExtract d = .error () → geminiResult (.ok d) = errorSummarySentinel) ∧
    (∀ d, geminiExtract d = .ok none → geminiResult (.ok d) = errorSummarySentinel) ∧
    (∀ d, geminiExtract d = .ok (some []) → geminiResult (.ok d) = errorSummarySentinel) ∧
    (∀ d : GeminiData,
      (d.candidates = none ∨
        (∃ c0 rest content, d.candidates = some (c0 :: rest) ∧
          c0.content = some content ∧
          (content.parts = none ∨
            ∃ p0 prest, content.parts = some (p0 :: prest) ∧ p0.text = none))) →
      geminiExtract d = .error ()) := by
  refine ⟨rfl, ?_, ?_, rfl, ?_, ?_, ?_, ?_⟩
  · intro d h
    simp [openaiResult, h]
  · intro d h
    rcases h with h | h | ⟨c0, rest, h, hm | hm⟩
    · simp [openaiExtract, h]
    · simp [openaiExtract, h]
    · simp [openaiExtract, h, hm]
    · simp [openaiExtract, h, hm]
  · intro d h
    simp [geminiResult, h]
  · intro d h
    simp [geminiResult, h]
  · intro d h
    simp [geminiResult, h]
  · intro d h
    rcases h with h | ⟨c0, rest, content, hc, hcont, hp | ⟨p0, prest, hp, ht⟩⟩
    · simp [geminiExtract, h]
    · simp [geminiExtract, hc, hcont, hp]
    · simp [geminiExtract, hc, hcont, hp, ht]

/-- Witness for C7 at a body with a missing `choices` / `candidates`
field. -/
theorem summarize_errors_become_sentinel_witness :
    openaiResult (.ok ⟨none⟩) = errorSummarySentinel ∧
    geminiResult (.ok ⟨none⟩) = errorSummarySentinel :=
  ⟨summarize_errors_become_sentinel.2.1 ⟨none⟩ rfl,
   summarize_errors_become_sentinel.2.2.2.2.1 ⟨none⟩ rfl⟩

/-- C9 counterexample: a well-formed OpenAI response whose first
choice's message content is the empty string makes
`summarizeWithOpenAI` return the empty string — not a non-empty one:
`''.trim()` is returned as is, unlike Gemini's `|| sentinel` guard. -/
theorem openaiResult_empty_on_empty_content :
    openaiResult (.ok ⟨some [⟨some ⟨some []⟩⟩]⟩) = [] := by decide

/-- C9 amended: the Gemini provider always returns a non-empty string;
the OpenAI provider returns a non-empty string except when the
successful response's first-choice content trims to the empty string,
in which case it returns that empty string. -/
theorem synthesis_nonempty_amended :
    (∀ rg : GeminiResponse, geminiResult rg ≠ []) ∧
    (∀ ro : OpenAIResponse, openaiResult ro = [] →
      ∃ d, ro = .ok d ∧ openaiExtract d = .ok []) ∧
    errorSummarySentinel ≠ [] := by
  refine ⟨?_, ?_, by decide⟩
  · intro rg
    cases rg with
    | err => decide
    | ok d =>
      cases hEx : geminiExtract d with
      | error e =>
        simp only [geminiResult, hEx]
        decide
      | ok s? =>
        cases s? with
        | none =>
          simp only [geminiResult, hEx]
          decide
        | some s =>
          simp only [geminiResult, hEx]
          by_cases hs : s = []
          · rw [if_pos hs]
            decide
          · rw [if_neg hs]
            exact hs
  · intro ro h
    cases ro with
    | err => exact absurd h (by decide)
    | ok d =>
      cases hEx : openaiExtract d with
      | error e =>
        rw [show openaiResult (.ok d) = errorSummarySentinel by
          simp [openaiResult, hEx]] at h
        exact absurd h (by decide)
      | ok s =>
        have hr : openaiResult (.ok d) = s := by simp [openaiResult, hEx]
        rw [hr] at h
        subst h
        exact ⟨d, rfl, hEx⟩

/-- Witness for C9 (amended): Gemini's transport-error sentinel is
non-empty, and whitespace-only OpenAI content is exactly the empty-trim
exception. -/
theorem synthesis_nonempty_amended_witness :
    geminiResult .err ≠ [] ∧
    ∃ d, (OpenAIResponse.ok ⟨some [⟨some ⟨some [' ']⟩⟩]⟩) = .ok d ∧
      openaiExtract d = .ok [] :=
  ⟨synthesis_nonempty_amended.1 .err,
   synthesis_nonempty_amended.2.1 _ (by decide)⟩

/-! ## Orchestrator theorems -/

lemma fetchLoop_valid (lib : String) (env : Env)
    (hlib : lib = "cheerio" ∨ lib = "puppeteer") (rs : List SearchResult) :
    fetchLoop lib env rs =
      (rs.map (fetchEvent lib), some (rs.map (fetchContent lib env))) := by
  induction rs with
  | nil => simp [fetchLoop]
  | cons r rs ih =>
    rcases hlib with h | h <;> subst h <;>
      simp [fetchLoop, fetchEvent, fetchContent, ih]

/-- C5: whenever the search yields an empty locator list — including a
transport/provider error during search, which `googleSearch` converts
to `[]` instead of propagating — `main` reports
`No results found.` and returns with no fetch and no synthesis
invocation and no synthesis result. -/
theorem main_no_results_short_circuit (query : JStr) (lib model : String)
    (n : Nat) (env : Env)
    (h : googleSearch env.searchResponse n = []) :
    mainRun query lib model n env = ([Event.log noResultsMsg], none) ∧
    noResultsMsg = "❌ ".toList ++ "No results found.".toList ∧
    (mainRun query lib model n env).1.countP (Event.isFetch ·) = 0 ∧
    (mainRun query lib model n env).1.countP (Event.isSynth ·) = 0 ∧
    (∀ m, googleSearch .err m = []) := by
  have hm : mainRun query lib model n env = ([Event.log noResultsMsg], none) := by
    unfold mainRun
    rw [h]
    rfl
  exact ⟨hm, by decide, by rw [hm]; rfl, by rw [hm]; rfl, fun _ => rfl⟩

/-- Witness for C5: a failed search transport degrades to the
no-results report. -/
theorem main_no_results_short_circuit_witness :
    mainRun "test".toList "cheerio" "openai" 5 envSearchDown =
      ([Event.log noResultsMsg], none) :=
  (main_no_results_short_circuit "test".toList "cheerio" "openai" 5
    envSearchDown rfl).1

/-- C10: with a fetch-library selector that is neither `puppeteer` nor
`cheerio` and a non-empty search result, `main` aborts inside the first
loop iteration: no fetch strategy and no synthesis provider is ever
invoked and the run produces no synthesis result, even though the
search stage already executed. -/
theorem main_invalid_fetch_library_aborts (query : JStr) (lib model : String)
    (n : Nat) (env : Env)
    (h1 : lib ≠ "puppeteer") (h2 : lib ≠ "cheerio")
    (h3 : googleSearch env.searchResponse n ≠ []) :
    mainRun query lib model n env = ([Event.log invalidFetchMsg], none) ∧
    (mainRun query lib model n env).1.countP (Event.isFetch ·) = 0 ∧
    (mainRun query lib model n env).1.countP (Event.isSynth ·) = 0 ∧
    (mainRun query lib model n env).2 = none := by
  have hm : mainRun query lib model n env = ([Event.log invalidFetchMsg], none) := by
    unfold mainRun
    cases hr : googleSearch env.searchResponse n with
    | nil => exact absurd hr h3
    | cons r rs =>
      rw [if_neg (by simp)]
      simp only [fetchLoop, if_neg h1, if_neg h2]
  exact ⟨hm, by rw [hm]; rfl, by rw [hm]; rfl, by rw [hm]⟩

/-- Witness for C10 at the selector `axios`. -/
theorem main_invalid_fetch_library_aborts_witness :
    mainRun "q".toList "axios" "openai" 5 envThreeResults =
      ([Event.log invalidFetchMsg], none) :=
  (main_invalid_fetch_library_aborts "q".toList "axios" "openai" 5 envThreeResults
    (by decide) (by decide) (by decide)).1

/-- C1: with a configured strategy and a non-empty search result of N
locators, `main` invokes the fetcher exactly once per locator in
locator order, accumulates exactly N excerpts positionally aligned with
the locators (a failed fetch contributes the fetch-error sentinel in
place; nothing is skipped or dropped), and then invokes exactly one
synthesis provider over the full accumulated list. -/
theorem main_invokes_fetcher_per_locator_in_order (query : JStr)
    (lib model : String) (n : Nat) (env : Env)
    (hlib : lib = "cheerio" ∨ lib = "puppeteer")
    (hne : googleSearch env.searchResponse n ≠ []) :
    (mainRun query lib model n env).1 =
      (googleSearch env.searchResponse n).map (fetchEvent lib) ++
        [if model = "gemini"
          then Event.synthGemini query
            ((googleSearch env.searchResponse n).map (fetchContent lib env))
          else Event.synthOpenAI query
            ((googleSearch env.searchResponse n).map (fetchContent lib env))] ∧
    ((googleSearch env.searchResponse n).map (fetchContent lib env)).length =
      (googleSearch env.searchResponse n).length ∧
    (∀ i (h : i < (googleSearch env.searchResponse n).length),
      ((googleSearch env.searchResponse n).map (fetchContent lib env)).get
          ⟨i, by simpa using h⟩ =
        fetchContent lib env ((googleSearch env.searchResponse n).get ⟨i, h⟩)) ∧
    (mainRun query lib model n env).1.countP (Event.isFetch ·) =
      (googleSearch env.searchResponse n).length ∧
    (mainRun query lib model n env).1.countP (Event.isSynth ·) = 1 ∧
    (mainRun query lib model n env).2 =
      some (if model = "gemini" then geminiResult env.geminiResponse
            else openaiResult env.openaiResponse) ∧
    (∀ i (h : i < (googleSearch env.searchResponse n).length),
      lib = "cheerio" →
      env.cheerioOutcome ((googleSearch env.searchResponse n).get ⟨i, h⟩).link =
        .err →
      ((googleSearch env.searchResponse n).map (fetchContent lib env)).get
          ⟨i, by simpa using h⟩ = errorFetchingSentinel) := by
  have hmain : mainRun query lib model n env =
      ((googleSearch env.searchResponse n).map (fetchEvent lib) ++
        [if model = "gemini"
          then Event.synthGemini query
            ((googleSearch env.searchResponse n).map (fetchContent lib env))
          else Event.synthOpenAI query
            ((googleSearch env.searchResponse n).map (fetchContent lib env))],
       some (if model = "gemini" then geminiResult env.geminiResponse
             else openaiResult env.openaiResponse)) := by
    unfold mainRun
    rw [if_neg (by simpa [List.length_eq_zero] using hne),
      fetchLoop_valid lib env hlib]
    by_cases hmod : model = "gemini"
    · rw [if_pos hmod]
      simp [summarizeWithGemini, if_pos hmod]
    · rw [if_neg hmod]
      simp [summarizeWithOpenAI, if_neg hmod]
  have hfetch : ∀ r, (fetchEvent lib r).isFetch = true := by
    intro r
    unfold fetchEvent
    by_cases h : lib = "puppeteer"
    · rw [if_pos h]; rfl
    · rw [if_neg h]; rfl
  refine ⟨by rw [hmain], List.length_map _ _, ?_, ?_, ?_, by rw [hmain], ?_⟩
  · intro i h
    simp
  · rw [hmain]
    simp only [List.countP_append]
    rw [List.countP_eq_length.mpr (by
      intro e he
      obtain ⟨r, _, hr⟩ := List.mem_map.mp he
      subst hr
      exact hfetch r)]
    rw [List.length_map]
    by_cases hmod : model = "gemini" <;>
      simp [hmod, Event.isFetch, List.countP_cons]
  · rw [hmain]
    simp only [List.countP_append]
    rw [List.countP_eq_zero.mpr (by
      intro e he
      obtain ⟨r, _, hr⟩ := List.mem_map.mp he
      subst hr
      unfold fetchEvent
      by_cases h : lib = "puppeteer"
      · rw [if_pos h]; simp [Event.isSynth]
      · rw [if_neg h]; simp [Event.isSynth])]
    by_cases hmod : model = "gemini" <;>
      simp [hmod, Event.isSynth, List.countP_cons]
  · intro i h hc herr
    subst hc
    simp only [List.get_eq_getElem] at herr
    simp only [List.get_eq_getElem, List.getElem_map]
    unfold fetchContent
    rw [if_neg (by decide), herr]
    rfl

/-- Witness for C1: three results fetched with cheerio, the second URL
failing — three fetch invocations, one synthesis invocation, and the
fetch-error sentinel standing in at position 1. -/
theorem main_invokes_fetcher_per_locator_in_order_witness :
    (mainRun "weather today".toList "cheerio" "openai" 5
        envThreeResults).1.countP (Event.isFetch ·) =
      (googleSearch envThreeResults.searchResponse 5).length ∧
    (mainRun "weather today".toList "cheerio" "openai" 5
        envThreeResults).1.countP (Event.isSynth ·) = 1 ∧
    ((googleSearch envThreeResults.searchResponse 5).map
        (fetchContent "cheerio" envThreeResults)).get ⟨1, by decide⟩ =
      errorFetchingSentinel :=
  ⟨(main_invokes_fetcher_per_locator_in_order "weather today".toList "cheerio"
      "openai" 5 envThreeResults (Or.inl rfl) (by decide)).2.2.2.1,
   (main_invokes_fetcher_per_locator_in_order "weather today".toList "cheerio"
      "openai" 5 envThreeResults (Or.inl rfl) (by decide)).2.2.2.2.1,
   (main_invokes_fetcher_per_locator_in_order "weather today".toList "cheerio"
      "openai" 5 envThreeResults (Or.inl rfl) (by decide)).2.2.2.2.2.2
     1 (by decide) rfl (by decide)⟩
